import Mathlib

/-!
Verification development for the agent-verify repository.

The Python sources under src/ are shallowly embedded as executable Lean
definitions: strings become `String` (character lists), the mutable
`Context`/`TokenUsage` objects become records threaded through pure
functions, machine floats for cost accounting become exact rationals, and
the agent loop of `agent_verify/harness.py` becomes a fuel-indexed
recursive function (the fuel is a modelling device; a lemma below shows it
is never exhausted at the chosen bound, because the max-iterations guard
bounds the number of generations).

External effects (LLM generations, tool subprocesses, verifier verdicts,
the wall clock) are supplied by an `Env` of oracle functions keyed by the
corresponding counters, which take a fresh value at every call site, so
every concrete trace of the real scheduler corresponds to some `Env`.
-/

namespace AgentVerify

/-! ### Python string primitives

Models of the Python `str` operations used by the sources, over the
character list `String.data`. -/

/-- Python substring test: `listContains p s` decides whether the pattern
`p` occurs contiguously in `s` (Python `p in s`). -/
def listContains (p : List Char) : List Char → Bool
  | [] => p.isPrefixOf ([] : List Char)
  | c :: t => p.isPrefixOf (c :: t) || listContains p t

/-- Python `p in s` on strings. -/
def strIn (p s : String) : Bool := listContains p.data s.data

/-- Python `s.startswith(p)`. -/
def strStartsWith (s p : String) : Bool := p.data.isPrefixOf s.data

/-- Python `s.endswith(p)`. -/
def strEndsWith (s p : String) : Bool := p.data.isSuffixOf s.data

/-- Python slice `s[:n]`. -/
def strTake (s : String) (n : Nat) : String := String.mk (s.data.take n)

/-- Python slice `s[-n:]` (for `n ≤ len s`; shorter strings are returned whole,
matching Python). -/
def strTakeLast (s : String) (n : Nat) : String :=
  String.mk (s.data.drop (s.data.length - n))

/-- Fuel-indexed scanner counting the non-overlapping occurrences of a
nonempty pattern from the left, exactly as Python `str.count` does. -/
def countFrom (p : List Char) : Nat → List Char → Nat
  | _, [] => 0
  | 0, _ => 0
  | fuel + 1, c :: t =>
    if p.isPrefixOf (c :: t) then 1 + countFrom p fuel ((c :: t).drop p.length)
    else countFrom p fuel t

/-- Python `s.count(p)`: non-overlapping occurrences; the empty pattern
counts `len(s) + 1`, as in Python. -/
def pyCount (s p : String) : Nat :=
  if p.data.isEmpty then s.data.length + 1
  else countFrom p.data s.data.length s.data

/-- Fuel-indexed scanner replacing the leftmost occurrence of a nonempty
pattern. -/
def replaceFrom (p r : List Char) : Nat → List Char → List Char
  | _, [] => []
  | 0, s => s
  | fuel + 1, c :: t =>
    if p.isPrefixOf (c :: t) then r ++ (c :: t).drop p.length
    else c :: replaceFrom p r fuel t

/-- Python `s.replace(p, r, 1)`: replace the first occurrence only; the
empty pattern inserts `r` at the front, as in Python. -/
def pyReplaceFirst (s p r : String) : String :=
  if p.data.isEmpty then String.mk (r.data ++ s.data)
  else String.mk (replaceFrom p.data r.data s.data.length s.data)

/-- Characters stripped by Python `str.strip()` with no argument. -/
def pySpace (c : Char) : Bool :=
  c == ' ' || c == '\t' || c == '\n' || c == '\r' || c == '\x0b' || c == '\x0c'

/-- Python `s.strip()`. -/
def pyStrip (s : String) : String :=
  String.mk (((s.data.dropWhile pySpace).reverse.dropWhile pySpace).reverse)

/-- Python `s.lower()` (ASCII case folding, as used on shell commands). -/
def pyLower (s : String) : String := String.mk (s.data.map Char.toLower)

/-- Python `s.split('/')` on character lists. -/
def splitSlash : List Char → List (List Char)
  | [] => [[]]
  | c :: t =>
    if c == '/' then [] :: splitSlash t
    else match splitSlash t with
      | [] => [[c]]
      | h :: r => (c :: h) :: r

/-- Python `s.split('/')` on strings. -/
def pySplitSlash (s : String) : List String := (splitSlash s.data).map String.mk

/-- Python `"\n".join(parts)`-style join with a separator. -/
def pyJoin (sep : String) : List String → String
  | [] => ""
  | [x] => x
  | x :: y :: t => x ++ sep ++ pyJoin sep (y :: t)

/-! ### Bash tool (`agent_verify/tools/bash.py`) -/

/-- The install-command blocklist `BashTool._BLOCKED_PATTERNS`. -/
def BLOCKED_PATTERNS : List String :=
  ["pip install -e",
   "pip install --editable",
   "pip3 install -e",
   "pip3 install --editable",
   "python setup.py develop",
   "python3 setup.py develop",
   "python setup.py install",
   "python3 setup.py install"]

/-- The refusal message produced for a blocklisted command. -/
def bashBlockedMessage (p : String) : String :=
  "Error: '" ++ p ++
  "' is blocked to prevent system Python pollution. Do not install packages globally. Modify source files directly instead."

/-- Outcome of the blocklist phase of `BashTool.execute`: either the
command is refused with an error message, or it proceeds to the
subprocess call. -/
inductive BashOutcome where
  | blocked (msg : String)
  | executes (command : String)
deriving DecidableEq

/-- The blocklist phase of `BashTool.execute` (lines 54-62): the lowered and
stripped command is scanned for each blocked pattern in order; a match is
refused without spawning a subprocess. -/
def bashExecuteCheck (command : String) : BashOutcome :=
  match BLOCKED_PATTERNS.find? (fun p => strIn p (pyStrip (pyLower command))) with
  | some p => .blocked (bashBlockedMessage p)
  | none => .executes command

/-! ### File tools (`agent_verify/tools/file_ops.py`) -/

/-- Model of the filesystem: a partial map from (absolute) path strings to
file contents. -/
def FS : Type := String → Option String

/-- Overwrite one path of the filesystem. -/
def FS.update (fs : FS) (path content : String) : FS :=
  fun q => if q = path then some content else fs q

/-- Whether a POSIX path string is absolute. -/
def pathIsAbsolute (p : String) : Bool := strStartsWith p "/"

/-- Model of `pathlib.Path.__truediv__` on POSIX paths, as used by
`self.workspace_dir / path` in each file tool: joining an absolute right
operand discards the base entirely. -/
def pathJoin (base p : String) : String :=
  if pathIsAbsolute p then p
  else if strEndsWith base "/" then base ++ p
  else base ++ "/" ++ p

/-- `FileReadTool.execute`. -/
def fileReadExecute (fs : FS) (workspace path : String) : String :=
  match fs (pathJoin workspace path) with
  | some content => content
  | none => "Error: File not found: " ++ path

/-- `FileWriteTool.execute`: returns the updated filesystem and the tool
message (the parent-directory creation of the source always succeeds in
this model). -/
def fileWriteExecute (fs : FS) (workspace path content : String) : FS × String :=
  (FS.update fs (pathJoin workspace path) content, "Successfully wrote to " ++ path)

/-- `FileEditTool.execute` (lines 125-140): fails when the file is missing,
when `old_string` does not occur, or when it occurs more than once
(Python's non-overlapping count); otherwise replaces the first occurrence
and writes the file back. -/
def fileEditExecute (fs : FS) (workspace path old_string new_string : String) :
    FS × String :=
  match fs (pathJoin workspace path) with
  | none => (fs, "Error: File not found: " ++ path)
  | some content =>
    if strIn old_string content = false then
      (fs, "Error: old_string not found in " ++ path)
    else if 1 < pyCount content old_string then
      (fs, "Error: old_string found " ++ toString (pyCount content old_string) ++
        " times in " ++ path ++ ". Provide more context to make it unique.")
    else
      (FS.update fs (pathJoin workspace path) (pyReplaceFirst content old_string new_string),
       "Successfully edited " ++ path)

/-! ### Verification results (`agent_verify/verification/base.py`) -/

/-- A value of the (heterogeneous) `details` dict of a verification
result: the sources store strings and integers there. -/
inductive DVal where
  | s (v : String)
  | i (v : Int)
deriving DecidableEq

/-- `VerificationResult` from `verification/base.py`. -/
structure VerificationResult where
  passed : Bool
  message : String
  details : List (String × DVal)
  token_cost : Nat
deriving DecidableEq

/-! ### Test-execution verifier (`agent_verify/verification/test_execution.py`) -/

/-- The possible outcomes of the `subprocess.run` call in
`TestExecutionVerifier.verify`. -/
inductive SubprocessOutcome where
  | completed (returncode : Int) (stdout stderr : String)
  | timedOut
  | execError (e : String)

/-- The combined `stdout`/`stderr` capture of lines 44-48 of
`test_execution.py`. -/
def combineOutput (stdout stderr : String) : String :=
  if stdout = "" then stderr
  else if stderr = "" then stdout
  else stdout ++ "\n" ++ stderr

/-- The middle-elision truncation of lines 51-52 of `test_execution.py`. -/
def elideMiddle (output : String) : String :=
  if 10000 < output.data.length then
    strTake output 5000 ++ "\n...[truncated]...\n" ++ strTakeLast output 5000
  else output

/-- `TestExecutionVerifier.verify` (lines 26-76), as a function of the
subprocess outcome. Note that the source computes the middle-elided
`output` (bound here as `output`) and then never uses it: the details map
carries `stdout[:5000]` and `stderr[:5000]` instead. -/
def testExecutionVerify (timeout : Nat) (test_command : String)
    (outcome : SubprocessOutcome) : VerificationResult :=
  if test_command = "" then
    { passed := false, message := "No test command specified for this task",
      details := [], token_cost := 0 }
  else match outcome with
    | .completed returncode stdout stderr =>
      let _output := elideMiddle (combineOutput stdout stderr)
      let passed := returncode == 0
      { passed := passed,
        message := "Tests " ++ (if passed then "passed" else "failed") ++
          " (exit code " ++ toString returncode ++ ")",
        details := [("exit_code", .i returncode),
                    ("stdout", .s (strTake stdout 5000)),
                    ("stderr", .s (strTake stderr 5000)),
                    ("test_command", .s test_command)],
        token_cost := 0 }
    | .timedOut =>
      { passed := false,
        message := "Tests timed out after " ++ toString timeout ++ "s",
        details := [("test_command", .s test_command), ("timeout", .i timeout)],
        token_cost := 0 }
    | .execError e =>
      { passed := false, message := "Error running tests: " ++ e,
        details := [("error", .s e)], token_cost := 0 }

/-! ### Grader adapter patch filter (`scripts/docker_eval.py`) -/

/-- Python `os`-free basename used by `_is_test_file`:
`parts[-1] if parts else filepath` after `filepath.split('/')`. -/
def basenameOf (filepath : String) : String :=
  (pySplitSlash filepath).getLastD filepath

/-- `_is_test_file` (lines 48-60 of `docker_eval.py`): note the directory
checks are substring tests (`'tests/' in filepath`), not path-segment
comparisons. -/
def isTestFile (filepath : String) : Bool :=
  if strStartsWith (basenameOf filepath) "test_" ||
     strEndsWith (basenameOf filepath) "_test.py" then true
  else if strIn "tests/" filepath || strIn "test/" filepath ||
     strIn "testing/" filepath then true
  else if basenameOf filepath = "conftest.py" then true
  else false

/-- One per-file section of a patch after splitting on `diff --git`
headers; `header_path` is the path captured by the header regex
(`none` when the regex does not match, in which case the source skips
the section). The regex split itself is abstracted into this list. -/
structure DiffSection where
  header_path : Option String
  text : String

/-- `extract_source_only_patch` (lines 17-45 of `docker_eval.py`) on
parsed sections: keep, in order, exactly the sections whose header parsed
and whose path is not classified as a test file. -/
def extractSourceOnlyPatch (sections : List DiffSection) : String :=
  String.join ((sections.filter fun fd =>
    match fd.header_path with
    | none => false
    | some p => !(isTestFile p)).map fun fd => fd.text)

/-- The test-file predicate as worded by the claim: path-segment equality
(`some path segment equals "tests", "test", or "testing"`) instead of the
substring test the source performs. Stated for refutation. -/
def claimTestFile (filepath : String) : Bool :=
  strStartsWith (basenameOf filepath) "test_" ||
  strEndsWith (basenameOf filepath) "_test.py" ||
  (pySplitSlash filepath).any (fun seg => seg == "tests" || seg == "test" || seg == "testing") ||
  basenameOf filepath == "conftest.py"

/-- The test-file predicate as worded by the amended claim: basename
starts with `test_` or ends with `_test.py`, or the path contains
`tests/`, `test/` or `testing/` as a substring, or the basename is
`conftest.py`. -/
def amendedTestFile (filepath : String) : Bool :=
  strStartsWith (basenameOf filepath) "test_" ||
  strEndsWith (basenameOf filepath) "_test.py" ||
  strIn "tests/" filepath ||
  strIn "test/" filepath ||
  strIn "testing/" filepath ||
  basenameOf filepath == "conftest.py"

/-! ### Token accounting (`agent_verify/context.py`, `TokenUsage`) -/

/-- `TokenUsage`: five cumulative counters. The Python float cost is
modelled as an exact rational. -/
structure TokenUsage where
  input_tokens : Nat
  output_tokens : Nat
  cache_creation_input_tokens : Nat
  cache_read_input_tokens : Nat
  total_cost_usd : Rat
deriving DecidableEq

/-- The all-zero usage a fresh `Context` starts from. -/
def TokenUsage.zero : TokenUsage :=
  { input_tokens := 0, output_tokens := 0, cache_creation_input_tokens := 0,
    cache_read_input_tokens := 0, total_cost_usd := 0 }

/-- `TokenUsage.total`: plain input plus output tokens. -/
def TokenUsage.total (u : TokenUsage) : Nat := u.input_tokens + u.output_tokens

/-- `TokenUsage.add`: accumulate one response's counters and cost. -/
def TokenUsage.add (u : TokenUsage) (inTok outTok cacheCreation cacheRead : Nat)
    (cost : Rat) : TokenUsage :=
  { input_tokens := u.input_tokens + inTok,
    output_tokens := u.output_tokens + outTok,
    cache_creation_input_tokens := u.cache_creation_input_tokens + cacheCreation,
    cache_read_input_tokens := u.cache_read_input_tokens + cacheRead,
    total_cost_usd := u.total_cost_usd + cost }

/-! ### LLM responses (`agent_verify/llm/base.py`) -/

/-- The structured arguments of one tool-use block (`tool_use["input"]`). -/
def ToolInput : Type := List (String × String)

/-- One tool-use content block (`{type: tool_use, id, name, input}`). -/
structure ToolUseBlock where
  id : String
  name : String
  input : ToolInput

/-- One content block of an assistant response: text, tool use, or a
transport-internal reasoning block. -/
inductive ContentBlock where
  | text (s : String)
  | toolUse (tu : ToolUseBlock)
  | reasoning (s : String)

/-- `LLMResponse` from `llm/base.py` (the `raw_response` field is
transport-internal and not modelled). -/
structure LLMResponse where
  content : List ContentBlock
  stop_reason : String
  input_tokens : Nat
  output_tokens : Nat
  cache_creation_input_tokens : Nat
  cache_read_input_tokens : Nat
  model : String

/-- The `PRICING` table of `llm/base.py`: per-million-token prices
(input, output, cache write, cache read). -/
def PRICING : List (String × Rat × Rat × Rat × Rat) :=
  [("claude-sonnet-4-6", 3, 15, 3.75, 0.30),
   ("claude-sonnet-4-20250514", 3, 15, 3.75, 0.30),
   ("claude-opus-4-6", 5, 25, 6.25, 0.50)]

/-- `LLMResponse.text_content`: the newline join of the text blocks. -/
def LLMResponse.text_content (r : LLMResponse) : String :=
  pyJoin "\n" (r.content.filterMap fun b =>
    match b with
    | .text s => some s
    | _ => none)

/-- `LLMResponse.tool_uses`: the tool-use blocks in order. -/
def LLMResponse.tool_uses (r : LLMResponse) : List ToolUseBlock :=
  r.content.filterMap fun b =>
    match b with
    | .toolUse tu => some tu
    | _ => none

/-- `LLMResponse.has_tool_use`. -/
def LLMResponse.has_tool_use (r : LLMResponse) : Bool :=
  !r.tool_uses.isEmpty

/-- `LLMResponse.cost_usd`: priced from the `PRICING` row of the model;
unknown models cost zero. -/
def LLMResponse.cost_usd (r : LLMResponse) : Rat :=
  match PRICING.find? (fun kv => kv.1 == r.model) with
  | none => 0
  | some (_, pin, pout, pcw, pcr) =>
    ((r.input_tokens : Rat) * pin + (r.output_tokens : Rat) * pout +
     (r.cache_creation_input_tokens : Rat) * pcw +
     (r.cache_read_input_tokens : Rat) * pcr) / 1000000

/-! ### Conversation context (`agent_verify/context.py`) -/

/-- The content of one transcript message: a plain user string, an
assistant block list, or a tool-result block wrapped in a user-role
message (`Context.add_tool_result`). -/
inductive MessageContent where
  | str (s : String)
  | blocks (bs : List ContentBlock)
  | toolResult (tool_use_id content : String)

/-- One transcript message. The wall-clock `timestamp` of the source is
real time and not modelled. -/
structure Message where
  role : String
  content : MessageContent

/-- One tool-call audit record (`ToolCall`); the real-time `timestamp`
and `duration_seconds` fields are not modelled. -/
structure ToolCall where
  tool_name : String
  tool_input : ToolInput
  tool_result : String

/-- `Context`: the conversation state owned by one scheduler invocation.
`start_time` is real time and enters the model only through the clock
oracle of `Env`. -/
structure Context where
  messages : List Message
  tool_calls : List ToolCall
  token_usage : TokenUsage
  iteration_count : Nat
  verification_count : Nat
  recovery_count : Nat
  is_complete : Bool
  completion_reason : String

/-- `Context.add_user_message`. -/
def user_message (s : String) : Message := { role := "user", content := .str s }

/-- `Context.add_assistant_message`. -/
def assistant_message (bs : List ContentBlock) : Message :=
  { role := "assistant", content := .blocks bs }

/-- `Context.add_tool_result`: a user-role message carrying one
tool_result block. -/
def tool_result_message (tool_use_id content : String) : Message :=
  { role := "user", content := .toolResult tool_use_id content }

/-! ### Tasks and results (`agent_verify/benchmark/base.py`) -/

/-- `Task`: only the fields the scheduler reads (`task_id`,
`description`); repository coordinates, test command and workspace enter
the model through the oracles. -/
structure Task where
  task_id : String
  description : String

/-- `TaskResult` as declared by the `benchmark/base.py` dataclass (minus
the `metadata` map, which the harness never writes). Note for the reader:
`AgentHarness._build_result` also passes `cache_creation_input_tokens`,
`cache_read_input_tokens` and `cost_usd` keyword arguments, which this
declared dataclass does not define — a plain dataclass rejects unknown
keyword arguments, so every `_build_result` call raises `TypeError`; see
`build_result` below. Only the `except` handler of `AgentHarness.run`
ever constructs a `TaskResult` successfully. -/
structure TaskResult where
  task_id : String
  resolved : Bool
  input_tokens : Nat
  output_tokens : Nat
  wall_clock_seconds : Nat
  tool_call_count : Nat
  verification_count : Nat
  recovery_count : Nat
  iterations : Nat
  completion_reason : String
  error : String
deriving DecidableEq

/-! ### Harness configuration (`agent_verify/config.py`) -/

/-- `VerificationGranularity` (G1/G2/G3). -/
inductive VerificationGranularity where
  | task_end_only
  | per_feature
  | per_step
deriving DecidableEq, BEq

/-- `RecoveryStrategyType` (R1/R2/R3). -/
inductive RecoveryStrategyType where
  | retry_in_context
  | compact_and_retry
  | fresh_restart
deriving DecidableEq, BEq

/-- The behavioural fields of `HarnessConfig`. The LLM/provider settings,
system prompt and workspace directory only parameterize the oracles and
are not modelled as data. The chosen verifier enters through the `verify`
oracle of `Env`. -/
structure HarnessConfig where
  verification_granularity : VerificationGranularity
  recovery_strategy : RecoveryStrategyType
  max_iterations : Nat
  max_recovery_attempts : Nat
  max_tokens_budget : Nat
  timeout_seconds : Nat

/-- The defaults declared in `config.py`. -/
def defaultHarnessConfig : HarnessConfig :=
  { verification_granularity := .task_end_only,
    recovery_strategy := .retry_in_context,
    max_iterations := 50,
    max_recovery_attempts := 3,
    max_tokens_budget := 500000,
    timeout_seconds := 600 }

/-! ### The environment of external effects -/

/-- Oracles for all external effects of one run. `gen` (the LLM client)
is keyed by the iteration count at the call, `tool_exec` by the length of
the tool-call audit list, `verify` by the verification count,
`compact_gen` (the R2 summarization call) by the recovery count, and
`clock` (elapsed seconds) by the iteration count at the guard check; each
key takes a fresh value at every corresponding call of the scheduler, so
every concrete trace is represented by some `Env`. A `.error` from `gen`
or `compact_gen` models a raised exception. -/
structure Env where
  gen : Nat → List Message → Except String LLMResponse
  tool_exec : Nat → String → ToolInput → String
  verify : Nat → VerificationResult
  compact_gen : Nat → Except String LLMResponse
  clock : Nat → Nat

/-! ### Recovery strategies (`agent_verify/recovery/`) -/

/-- `RetryInContext.recover` (R1): append the failure feedback, bump the
recovery counter, clear the terminal flag, return the same context. -/
def retry_in_context_recover (ctx : Context) (verification : VerificationResult) : Context :=
  { ctx with
    messages := ctx.messages ++ [user_message
      ("VERIFICATION FAILED. Please fix the issues and try again.\n\nFailure details:\n" ++
       verification.message)],
    recovery_count := ctx.recovery_count + 1,
    is_complete := false }

/-- `FreshRestart.recover` (R3): a new context carrying over the usage
object, the tool-call list (both the same Python object as the old
context's, i.e. aliased), and the three counters, seeded with the restart
message. -/
def fresh_restart_recover (ctx : Context) (verification : VerificationResult)
    (task : Task) : Context :=
  { messages := [user_message
      ("## Task\n" ++ task.description ++
       "\n\n## Previous Attempt Result\nA previous attempt was made but verification failed:\n" ++
       verification.message ++
       "\n\nThe workspace filesystem contains changes from the previous attempt. " ++
       "You may inspect the current state of files and git history.\n\n" ++
       "Please complete this task, addressing the issues identified above.")],
    tool_calls := ctx.tool_calls,
    token_usage := ctx.token_usage,
    iteration_count := ctx.iteration_count,
    verification_count := ctx.verification_count,
    recovery_count := ctx.recovery_count + 1,
    is_complete := false,
    completion_reason := "" }

/-- The context built by `CompactAndRetry.recover` (R2) after the
summarization call; the token accounting for that call happens at the
call site, before this context is created. -/
def compact_recover (ctx : Context) (summary : String)
    (verification : VerificationResult) (task : Task) : Context :=
  { messages := [user_message
      ("## Context Summary (from previous attempt)\n" ++ summary ++
       "\n\n## Verification Failure\n" ++ verification.message ++
       "\n\n## Task\n" ++ task.description ++
       "\n\nPlease continue working on this task, addressing the verification failure above.")],
    tool_calls := ctx.tool_calls,
    token_usage := ctx.token_usage,
    iteration_count := ctx.iteration_count,
    verification_count := ctx.verification_count,
    recovery_count := ctx.recovery_count + 1,
    is_complete := false,
    completion_reason := "" }

/-! ### The agent-loop scheduler (`agent_verify/harness.py`) -/

/-- The completion marker scanned for in assistant text. -/
def TASK_COMPLETE_MARKER : String := "TASK_COMPLETE"

/-- The nudge appended when the agent stops without tool use or marker. -/
def nudge_message : String :=
  "Please continue working on the task. When done, include 'TASK_COMPLETE' in your response."

/-- The message of the `TypeError` that every `AgentHarness._build_result`
call raises (Python quotation marks around the argument name are elided;
no theorem depends on the exact text, only on the construction failing). -/
def build_result_raise : String :=
  "TaskResult.__init__() got an unexpected keyword argument cache_creation_input_tokens"

/-- `AgentHarness._build_result` (lines 246-263): it evaluates its keyword
arguments off the context, then calls the `TaskResult` constructor with
`cache_creation_input_tokens`, `cache_read_input_tokens` and `cost_usd`
keyword arguments that the dataclass of `benchmark/base.py` does not
declare, so the constructor raises `TypeError` before any result object
exists. No call of `_build_result` ever returns. -/
def build_result (_ctx : Context) (_task : Task) : Except String TaskResult :=
  .error build_result_raise

/-- Outcome of one `_agent_loop` activation. `.done fin` marks reaching a
`return self._build_result(context, task)` statement with the loop's own
context object in state `fin` — the `_build_result` call itself then
raises (see `build_result`), so no activation actually returns a
`TaskResult`. `.exn` is any other propagating exception, carrying the
context state visible to `AgentHarness.run`'s handler. `.fuelOut` is fuel
exhaustion (a modelling artefact, proven unreachable below). -/
inductive LoopOut where
  | done (fin : Context)
  | exn (ctx : Context) (msg : String)
  | fuelOut

/-- The completion reason recorded on the context an outcome carries (an
observation function used to state the C1/C3 divergences). -/
def LoopOut.reason : LoopOut → String
  | .done fin => fin.completion_reason
  | .exn ctx _ => ctx.completion_reason
  | .fuelOut => ""

/-- Outcome of one `_run_verification` call (or of one tool-dispatch
step): stop the loop with a final context, continue with a (possibly
replaced) context, propagate an exception, or fuel exhaustion. -/
inductive VStep where
  | stopped (fin : Context)
  | continued (ctx : Context)
  | raised (ctx : Context) (msg : String)
  | outOfFuel

/-- The recursion site of `_run_verification` for a replaced context (R2
and R3, lines 231-240 of `harness.py`): run the loop on the new context.
When the inner loop reaches a normal termination (`.done fin`), it
executes `return self._build_result(new_context, task)`; since that call
raises (`build_result` always returns `.error`), the copy-back block at
lines 234-239 — embedded here as the `.ok` branch — is dead code, and the
exception propagates past the outer activation. The outer context's
`token_usage` and `tool_calls` are the same Python objects as the inner
one's (aliased by `FreshRestart.recover` / `CompactAndRetry.recover`), so
the handler sees the inner values for those two fields over the outer
scalar counters; a propagating inner exception behaves the same way. -/
def resume_new_context (task : Task) (rec : Context → Nat → LoopOut)
    (ctxOuter : Context) (recovery_attempts : Nat) (newCtx : Context) : VStep :=
  match rec newCtx (recovery_attempts + 1) with
  | .fuelOut => .outOfFuel
  | .exn ctxE e =>
    .raised { ctxOuter with token_usage := ctxE.token_usage, tool_calls := ctxE.tool_calls } e
  | .done fin =>
    match build_result fin task with
    | .error e =>
      .raised { ctxOuter with token_usage := fin.token_usage, tool_calls := fin.tool_calls } e
    | .ok result =>
      .stopped { ctxOuter with
        is_complete := true,
        completion_reason :=
          (if fin.completion_reason = "" then result.completion_reason
           else fin.completion_reason),
        token_usage := fin.token_usage,
        verification_count := fin.verification_count,
        recovery_count := fin.recovery_count,
        tool_calls := fin.tool_calls }

/-- `AgentHarness._run_verification` (lines 195-244): verify, stop on a
pass or on exhausted recovery attempts, otherwise recover. A same-object
recovery (R1) clears the terminal flag and continues; a replaced context
(R2 with a client, R3) recurses through `resume_new_context`. Note that
`recovery_attempts` is only threaded onward, never incremented, on the
same-object path. -/
def run_verification (cfg : HarnessConfig) (env : Env) (task : Task)
    (rec : Context → Nat → LoopOut) (ctx : Context) (recovery_attempts : Nat) : VStep :=
  if (env.verify ctx.verification_count).passed then
    .stopped { ctx with
      verification_count := ctx.verification_count + 1,
      is_complete := true, completion_reason := "verified" }
  else if cfg.max_recovery_attempts ≤ recovery_attempts then
    .stopped { ctx with
      verification_count := ctx.verification_count + 1,
      is_complete := true, completion_reason := "max_recovery" }
  else
    match cfg.recovery_strategy with
    | .retry_in_context =>
      .continued { (retry_in_context_recover
        { ctx with verification_count := ctx.verification_count + 1 }
        (env.verify ctx.verification_count)) with is_complete := false }
    | .fresh_restart =>
      resume_new_context task rec
        { ctx with verification_count := ctx.verification_count + 1 } recovery_attempts
        (fresh_restart_recover
          { ctx with verification_count := ctx.verification_count + 1 }
          (env.verify ctx.verification_count) task)
    | .compact_and_retry =>
      match env.compact_gen ctx.recovery_count with
      | .error e => .raised { ctx with verification_count := ctx.verification_count + 1 } e
      | .ok resp =>
        resume_new_context task rec
          { ctx with
            verification_count := ctx.verification_count + 1,
            token_usage := ctx.token_usage.add resp.input_tokens resp.output_tokens 0 0 0 }
          recovery_attempts
          (compact_recover
            { ctx with
              verification_count := ctx.verification_count + 1,
              token_usage := ctx.token_usage.add resp.input_tokens resp.output_tokens 0 0 0 }
            resp.text_content (env.verify ctx.verification_count) task)

/-- One tool dispatch (`_execute_tool` plus `add_tool_result`, lines
144-146 and 173-193 of `harness.py`): run the tool, append the audit
record with the result truncated to 5000 characters, and append the
tool-result message carrying the full result. -/
def dispatch_tool (env : Env) (tu : ToolUseBlock) (ctx : Context) : Context :=
  { ctx with
    tool_calls := ctx.tool_calls ++
      [{ tool_name := tu.name, tool_input := tu.input,
         tool_result := strTake (env.tool_exec ctx.tool_calls.length tu.name tu.input) 5000 }],
    messages := ctx.messages ++
      [tool_result_message tu.id (env.tool_exec ctx.tool_calls.length tu.name tu.input)] }

/-- The tool-dispatch loop of `_agent_loop` (lines 143-152): execute each
tool use in order, and under per-step granularity (G3) verify after each
dispatch. -/
def process_tools (cfg : HarnessConfig) (env : Env) (task : Task)
    (rec : Context → Nat → LoopOut) (recovery_attempts : Nat) :
    List ToolUseBlock → Context → VStep
  | [], ctx => .continued ctx
  | tu :: rest, ctx =>
    if cfg.verification_granularity == .per_step then
      match run_verification cfg env task rec (dispatch_tool env tu ctx) recovery_attempts with
      | .stopped fin => .stopped fin
      | .continued ctx2 => process_tools cfg env task rec recovery_attempts rest ctx2
      | .raised c m => .raised c m
      | .outOfFuel => .outOfFuel
    else
      process_tools cfg env task rec recovery_attempts rest (dispatch_tool env tu ctx)

/-- The post-generation body of one `_agent_loop` iteration (lines
139-169 of `harness.py`), over the context `ctx1` that already carries
the response's usage, the incremented iteration count and the appended
assistant message. `rec` is the continuation of the while loop (and of
the R2/R3 recursion): dispatch tools (with per-step verification under
G3), or handle the completion marker with a task-end verification, or
nudge a bare `end_turn`, or fall through to the next loop entry. -/
def agent_step (cfg : HarnessConfig) (env : Env) (task : Task)
    (rec : Context → Nat → LoopOut) (response : LLMResponse) (ctx1 : Context)
    (recovery_attempts : Nat) : LoopOut :=
  if response.has_tool_use then
    match process_tools cfg env task rec recovery_attempts response.tool_uses ctx1 with
    | .stopped fin => .done fin
    | .continued ctx2 => rec ctx2 recovery_attempts
    | .raised c m => .exn c m
    | .outOfFuel => .fuelOut
  else if strIn TASK_COMPLETE_MARKER response.text_content then
    match run_verification cfg env task rec
        { ctx1 with is_complete := true, completion_reason := "agent_declared" }
        recovery_attempts with
    | .stopped fin => .done fin
    | .continued ctx3 => rec ctx3 recovery_attempts
    | .raised c m => .exn c m
    | .outOfFuel => .fuelOut
  else if response.stop_reason == "end_turn" then
    rec { ctx1 with messages := ctx1.messages ++ [user_message nudge_message] }
      recovery_attempts
  else
    rec ctx1 recovery_attempts

/-- `AgentHarness._agent_loop` (lines 87-171), fuel-indexed (written with
an explicit recursor so evaluation is linear in the fuel). Each loop
entry: exit if terminal; check the three budget guards in order; generate
(a `.error` models a raised transport exception); account usage and
iteration; then run `agent_step`. One unit of fuel is spent per loop
entry; the iteration count strictly increases at every recursive call,
so `max_iterations + 2` fuel always suffices. -/
def agent_loop (cfg : HarnessConfig) (env : Env) (task : Task) :
    Nat → Context → Nat → LoopOut :=
  Nat.rec
    (motive := fun _ => Context → Nat → LoopOut)
    (fun ctx _recovery_attempts =>
      if ctx.is_complete then .done ctx
      else if cfg.max_iterations ≤ ctx.iteration_count then
        .done { ctx with is_complete := true, completion_reason := "max_iterations" }
      else if cfg.max_tokens_budget ≤ ctx.token_usage.total then
        .done { ctx with is_complete := true, completion_reason := "token_budget" }
      else if cfg.timeout_seconds ≤ env.clock ctx.iteration_count then
        .done { ctx with is_complete := true, completion_reason := "timeout" }
      else .fuelOut)
    (fun _fuel' rec ctx recovery_attempts =>
      if ctx.is_complete then .done ctx
      else if cfg.max_iterations ≤ ctx.iteration_count then
        .done { ctx with is_complete := true, completion_reason := "max_iterations" }
      else if cfg.max_tokens_budget ≤ ctx.token_usage.total then
        .done { ctx with is_complete := true, completion_reason := "token_budget" }
      else if cfg.timeout_seconds ≤ env.clock ctx.iteration_count then
        .done { ctx with is_complete := true, completion_reason := "timeout" }
      else match env.gen ctx.iteration_count ctx.messages with
        | .error e => .exn ctx e
        | .ok response =>
          agent_step cfg env task rec response
            { ctx with
              token_usage := ctx.token_usage.add response.input_tokens response.output_tokens
                response.cache_creation_input_tokens response.cache_read_input_tokens
                response.cost_usd,
              iteration_count := ctx.iteration_count + 1,
              messages := ctx.messages ++ [assistant_message response.content] }
            recovery_attempts)

/-- The context `AgentHarness.run` seeds: one user message holding the
task description. -/
def initial_context (task : Task) : Context :=
  { messages := [user_message task.description],
    tool_calls := [],
    token_usage := TokenUsage.zero,
    iteration_count := 0,
    verification_count := 0,
    recovery_count := 0,
    is_complete := false,
    completion_reason := "" }

/-- The fuel `harness_run` hands the loop; sufficient by
`agent_loop_spec` below. -/
def run_fuel (cfg : HarnessConfig) : Nat := cfg.max_iterations + 2

/-- The `TaskResult` built by the `except` handler of `AgentHarness.run`
(harness.py lines 60-73) from the handler-visible context state and the
stringified exception: `resolved = False`, `completion_reason = "error"`,
counters read off the context object `run` holds. -/
def run_except_result (env : Env) (ctx : Context) (task : Task) (e : String) : TaskResult :=
  { task_id := task.task_id,
    resolved := false,
    input_tokens := ctx.token_usage.input_tokens,
    output_tokens := ctx.token_usage.output_tokens,
    wall_clock_seconds := env.clock ctx.iteration_count,
    tool_call_count := ctx.tool_calls.length,
    verification_count := ctx.verification_count,
    recovery_count := ctx.recovery_count,
    iterations := ctx.iteration_count,
    completion_reason := "error",
    error := e }

/-- `AgentHarness.run` (lines 47-85). In the source every termination of
`_agent_loop` reaches the `except` handler: a normal termination executes
`return self._build_result(context, task)`, which raises `TypeError`
(see `build_result`), and that exception — like any other raised in the
loop — propagates to the handler. A top-level `.done fin` can only carry
the state of the very context object `run` holds (inner terminations
under R2/R3 become `.raised` inside `resume_new_context`), so the handler
record is built from `fin`; the `.fuelOut` sentinel is unreachable at
this fuel (`agent_loop_spec` below) and is mapped to a handler record of
the initial context only to keep the model total. -/
def harness_run (cfg : HarnessConfig) (env : Env) (task : Task) : TaskResult :=
  match agent_loop cfg env task (run_fuel cfg) (initial_context task) 0 with
  | .done fin =>
    match build_result fin task with
    | .error e => run_except_result env fin task e
    | .ok result => result
  | .exn ctx e => run_except_result env ctx task e
  | .fuelOut => run_except_result env (initial_context task) task build_result_raise

/-- `NoVerification.verify` (V0, `verification/none.py`): always passes. -/
def no_verification_result : VerificationResult :=
  { passed := true, message := "No verification performed (V0 baseline)",
    details := [], token_cost := 0 }

/-! ### Concrete scenario fixtures -/

/-- A demo task used by the concrete scenarios. -/
def demo_task : Task := { task_id := "t", description := "Fix the bug" }

/-- A verifier verdict that always fails. -/
def always_fail_result : VerificationResult :=
  { passed := false, message := "Tests failed", details := [], token_cost := 0 }

/-- A stub response declaring completion with usage (input=10, output=5)
and no tool use. -/
def complete_response : LLMResponse :=
  { content := [.text "I am done. TASK_COMPLETE"], stop_reason := "end_turn",
    input_tokens := 10, output_tokens := 5, cache_creation_input_tokens := 0,
    cache_read_input_tokens := 0, model := "" }

/-- An environment whose model always declares completion and whose
verifier always fails. -/
def env_always_fail : Env :=
  { gen := fun _ _ => .ok complete_response,
    tool_exec := fun _ _ _ => "",
    verify := fun _ => always_fail_result,
    compact_gen := fun _ => .ok complete_response,
    clock := fun _ => 0 }

/-- Configuration for the R1 exhaustion scenario: recovery R1,
`max_recovery_attempts = 1`, `max_iterations = 10`. -/
def cfg_r1_exhaust : HarnessConfig :=
  { verification_granularity := .task_end_only,
    recovery_strategy := .retry_in_context,
    max_iterations := 10,
    max_recovery_attempts := 1,
    max_tokens_budget := 500000,
    timeout_seconds := 600 }

/-- Configuration for the R3 counter-inheritance scenario: recovery R3,
`max_recovery_attempts = 1`, `max_iterations = 10`. -/
def cfg_r3_counters : HarnessConfig :=
  { cfg_r1_exhaust with recovery_strategy := .fresh_restart }

/-- The stub of end-to-end scenario 1 of the specification: one text
block `I'm done. TASK_COMPLETE`, `end_turn`, usage (input=10, output=5),
verifier V0. -/
def env_v0_declares : Env :=
  { gen := fun _ _ => .ok
      { content := [.text "I'm done. TASK_COMPLETE"], stop_reason := "end_turn",
        input_tokens := 10, output_tokens := 5, cache_creation_input_tokens := 0,
        cache_read_input_tokens := 0, model := "" },
    tool_exec := fun _ _ _ => "",
    verify := fun _ => no_verification_result,
    compact_gen := fun _ => .error "no client",
    clock := fun _ => 0 }

/-- An environment whose first model call raises a transport exception. -/
def env_gen_raises : Env :=
  { gen := fun _ _ => .error "Connection error",
    tool_exec := fun _ _ _ => "",
    verify := fun _ => no_verification_result,
    compact_gen := fun _ => .error "no client",
    clock := fun _ => 0 }

/-- The terminal reasons the scheduler itself can leave on a normally
returned context. -/
def scheduler_reasons : List String :=
  ["verified", "max_iterations", "token_budget", "timeout", "max_recovery"]

/-- A 10001-character stdout capture, used to exercise the V2 truncation
branch. -/
def big_stdout : String := String.mk (List.replicate 10001 'a')

/-- A read-only filesystem fixture holding one Python file. -/
def fs_demo : FS :=
  fun q => if q = "/ws/test.py" then some "def foo():\n    return 1\n" else none

/-- The keep-predicate of the amended C9 claim: a parsed section is kept
exactly when its path is not matched by `amendedTestFile`. -/
def amendedKeep (fd : DiffSection) : Bool :=
  match fd.header_path with
  | none => false
  | some p => !(amendedTestFile p)

/-- Invariant of a loop outcome: the fuel sentinel never occurs and a
normal return carries one of the scheduler's terminal reasons. -/
def LoopOutSpec (out : LoopOut) : Prop :=
  out ≠ LoopOut.fuelOut ∧
  ∀ fin, out = LoopOut.done fin → fin.completion_reason ∈ scheduler_reasons

/-- Invariant of a verification/tool step outcome relative to the context
it started from: no fuel sentinel, stopped contexts carry a scheduler
terminal reason, and continued contexts are non-terminal with an
unchanged iteration count. -/
def VStepSpec (base : Context) (st : VStep) : Prop :=
  st ≠ VStep.outOfFuel ∧
  (∀ fin, st = VStep.stopped fin → fin.completion_reason ∈ scheduler_reasons) ∧
  (∀ c, st = VStep.continued c →
    c.is_complete = false ∧ c.iteration_count = base.iteration_count)

/-! ## Helper lemmas on the string primitives -/

theorem isPrefixOf_append_left :
    ∀ (p a b : List Char), p.isPrefixOf a = true → p.isPrefixOf (a ++ b) = true := by
  intro p
  induction p with
  | nil => intro a b _; simp [List.isPrefixOf]
  | cons c p ih =>
    intro a b h
    cases a with
    | nil => simp [List.isPrefixOf] at h
    | cons d a' =>
      simp only [List.cons_append, List.isPrefixOf, Bool.and_eq_true] at h ⊢
      exact ⟨h.1, ih a' b h.2⟩

theorem isPrefixOf_append_of_length_le :
    ∀ (p a b : List Char), p.length ≤ a.length → p.isPrefixOf (a ++ b) = p.isPrefixOf a := by
  intro p
  induction p with
  | nil => intro a b _; simp [List.isPrefixOf]
  | cons c p ih =>
    intro a b h
    cases a with
    | nil => simp at h
    | cons d a' =>
      simp only [List.length_cons, Nat.add_le_add_iff_right] at h
      simp only [List.cons_append, List.isPrefixOf, List.append_eq]
      rw [ih a' b h]

theorem listContains_append_right (p : List Char) :
    ∀ (a b : List Char), listContains p b = true → listContains p (a ++ b) = true := by
  intro a
  induction a with
  | nil => intro b h; simpa using h
  | cons c a' ih =>
    intro b h
    simp only [List.cons_append, listContains, Bool.or_eq_true]
    exact Or.inr (ih b h)

theorem strIn_append_right (p a b : String) (h : strIn p b = true) :
    strIn p (a ++ b) = true := by
  unfold strIn at h ⊢
  rw [String.data_append]
  exact listContains_append_right p.data a.data b.data h

theorem strStartsWith_append_left (s t p : String) (h : strStartsWith s p = true) :
    strStartsWith (s ++ t) p = true := by
  unfold strStartsWith at h ⊢
  rw [String.data_append]
  exact isPrefixOf_append_left p.data s.data t.data h

theorem strStartsWith_append_of_length_le (s t p : String)
    (h : p.data.length ≤ s.data.length) :
    strStartsWith (s ++ t) p = strStartsWith s p := by
  unfold strStartsWith
  rw [String.data_append]
  exact isPrefixOf_append_of_length_le p.data s.data t.data h

theorem countFrom_pos_contains (p : List Char) :
    ∀ (fuel : Nat) (s : List Char), 1 ≤ countFrom p fuel s → listContains p s = true := by
  intro fuel
  induction fuel with
  | zero =>
    intro s h
    cases s with
    | nil => simp [countFrom] at h
    | cons c t => simp [countFrom] at h
  | succ n ih =>
    intro s h
    cases s with
    | nil => simp [countFrom] at h
    | cons c t =>
      simp only [countFrom] at h
      by_cases hp : p.isPrefixOf (c :: t) = true
      · simp only [listContains, hp, Bool.true_or]
      · simp only [Bool.not_eq_true] at hp
        simp only [hp, if_neg] at h
        simp only [listContains, Bool.or_eq_true]
        exact Or.inr (ih t (by simpa using h))

theorem pyCount_one_contains (content old : String) (h : pyCount content old = 1) :
    strIn old content = true := by
  unfold pyCount at h
  unfold strIn
  by_cases he : old.data.isEmpty = true
  · have : old.data = [] := by simpa [List.isEmpty_iff] using he
    rw [this]
    cases content.data with
    | nil => simp [listContains, List.isPrefixOf]
    | cons c t => simp [listContains, List.isPrefixOf]
  · simp only [he, if_neg, Bool.not_eq_true] at h
    simp only [Bool.not_eq_true] at he
    exact countFrom_pos_contains old.data content.data.length content.data (by omega)

/-! ## C6: bash install blocklist -/

/-- C6: every command containing a blocklisted install pattern
(case-insensitively, i.e. after the source's lower-and-strip
normalization) is refused by `BashTool.execute` with an error message
containing "blocked" and never reaches the subprocess call; every command
matching no pattern proceeds to execution. -/
theorem C6_bash_blocklist (command : String) :
    (∀ p, p ∈ BLOCKED_PATTERNS → strIn p (pyStrip (pyLower command)) = true →
      ∃ msg, bashExecuteCheck command = .blocked msg ∧ strIn "blocked" msg = true) ∧
    ((∀ p, p ∈ BLOCKED_PATTERNS → strIn p (pyStrip (pyLower command)) = false) →
      bashExecuteCheck command = .executes command) := by
  constructor
  · intro p hp hin
    have hsome : (BLOCKED_PATTERNS.find? (fun q => strIn q (pyStrip (pyLower command)))).isSome := by
      rw [List.find?_isSome]
      exact ⟨p, hp, hin⟩
    rcases Option.isSome_iff_exists.mp hsome with ⟨q, hq⟩
    refine ⟨bashBlockedMessage q, ?_, ?_⟩
    · unfold bashExecuteCheck
      rw [hq]
    · unfold bashBlockedMessage
      apply strIn_append_right
      decide
  · intro hnone
    have : BLOCKED_PATTERNS.find? (fun q => strIn q (pyStrip (pyLower command))) = none := by
      rw [List.find?_eq_none]
      intro x hx
      simp [hnone x hx]
    unfold bashExecuteCheck
    rw [this]

/-- Witness for C6 at the blocked command of scenario 6 and at a benign
command. -/
theorem C6_bash_blocklist_witness :
    (∃ msg, bashExecuteCheck "pip install -e ." = .blocked msg ∧ strIn "blocked" msg = true) ∧
    bashExecuteCheck "echo hello" = .executes "echo hello" :=
  ⟨(C6_bash_blocklist "pip install -e .").1 "pip install -e" (by decide) (by decide),
   (C6_bash_blocklist "echo hello").2 (by decide)⟩

/-! ## C7: file_edit uniqueness policy -/

/-- C7: on an existing file, `file_edit` errors (and leaves the
filesystem untouched) exactly when `old_string` is absent or occurs more
than once (Python's non-overlapping count); with exactly one occurrence
it replaces that occurrence and writes the result back. -/
theorem C7_file_edit_unique (fs : FS) (ws path old_string new_string content : String)
    (hfile : fs (pathJoin ws path) = some content) :
    (strStartsWith (fileEditExecute fs ws path old_string new_string).2 "Error:" = true ↔
      (strIn old_string content = false ∨ 1 < pyCount content old_string)) ∧
    ((strIn old_string content = false ∨ 1 < pyCount content old_string) →
      (fileEditExecute fs ws path old_string new_string).1 = fs) ∧
    (pyCount content old_string = 1 →
      fileEditExecute fs ws path old_string new_string =
        (FS.update fs (pathJoin ws path) (pyReplaceFirst content old_string new_string),
         "Successfully edited " ++ path)) := by
  by_cases habs : strIn old_string content = false
  · have hedit : fileEditExecute fs ws path old_string new_string =
        (fs, "Error: old_string not found in " ++ path) := by
      simp only [fileEditExecute, hfile]
      rw [if_pos habs]
    refine ⟨?_, ?_, ?_⟩
    · rw [hedit]
      constructor
      · intro _; exact Or.inl habs
      · intro _
        exact strStartsWith_append_left _ _ _ (by decide)
    · intro _; rw [hedit]
    · intro hone
      have h1 := pyCount_one_contains content old_string hone
      rw [h1] at habs
      exact absurd habs (by decide)
  · have habs' : strIn old_string content = true := by
      cases h : strIn old_string content
      · exact absurd h habs
      · rfl
    by_cases hmany : 1 < pyCount content old_string
    · have hedit : fileEditExecute fs ws path old_string new_string =
          (fs, "Error: old_string found " ++ toString (pyCount content old_string) ++
            " times in " ++ path ++ ". Provide more context to make it unique.") := by
        simp only [fileEditExecute, hfile]
        rw [if_neg habs, if_pos hmany]
      refine ⟨?_, ?_, ?_⟩
      · rw [hedit]
        constructor
        · intro _; exact Or.inr hmany
        · intro _
          exact strStartsWith_append_left _ _ _ (strStartsWith_append_left _ _ _
            (strStartsWith_append_left _ _ _ (strStartsWith_append_left _ _ _ (by decide))))
      · intro _; rw [hedit]
      · intro hone; omega
    · have hedit : fileEditExecute fs ws path old_string new_string =
          (FS.update fs (pathJoin ws path) (pyReplaceFirst content old_string new_string),
           "Successfully edited " ++ path) := by
        simp only [fileEditExecute, hfile]
        rw [if_neg habs, if_neg hmany]
      refine ⟨?_, ?_, ?_⟩
      · rw [hedit]
        constructor
        · intro h
          rw [strStartsWith_append_of_length_le _ _ _ (by decide)] at h
          exact absurd h (by decide)
        · intro h
          rcases h with h | h
          · rw [h] at habs'
            exact absurd habs' (by decide)
          · exact absurd h hmany
      · intro h
        rcases h with h | h
        · rw [h] at habs'
          exact absurd habs' (by decide)
        · exact absurd h hmany
      · intro _; rw [hedit]

/-- Witness for C7: editing the demo file at its unique occurrence
succeeds, and the result is written back. -/
theorem C7_file_edit_unique_witness :
    pyCount "def foo():\n    return 1\n" "return 1" = 1 ∧
    fileEditExecute fs_demo "/ws" "test.py" "return 1" "return 42" =
      (FS.update fs_demo (pathJoin "/ws" "test.py")
        (pyReplaceFirst "def foo():\n    return 1\n" "return 1" "return 42"),
       "Successfully edited " ++ "test.py") :=
  ⟨by decide,
   (C7_file_edit_unique fs_demo "/ws" "test.py" "return 1" "return 42"
      "def foo():\n    return 1\n" (by decide)).2.2 (by decide)⟩

/-! ## C8: V2 test-execution verifier -/

/-- C8 counterexample: with a completed test subprocess whose combined
output has 10001 characters and exit code 0, the verdict passes, the
combined output does exceed the 10000-character threshold, and yet no
entry of the details map carries the middle-elided truncation of that
output (the details map holds `stdout[:5000]` and `stderr[:5000]`
instead; the elided string is computed by the source and discarded). -/
theorem C8_elided_output_not_in_details :
    (testExecutionVerify 300 "pytest" (.completed 0 big_stdout "")).passed = true ∧
    10000 < (combineOutput big_stdout "").data.length ∧
    (∀ kv ∈ (testExecutionVerify 300 "pytest" (.completed 0 big_stdout "")).details,
      kv.2 ≠ DVal.s (elideMiddle (combineOutput big_stdout ""))) := by
  have hco : combineOutput big_stdout "" = big_stdout := by
    unfold combineOutput
    rw [if_neg (by decide), if_pos rfl]
  have hbiglen : big_stdout.data.length = 10001 :=
    List.length_replicate 10001 'a'
  have hmark : ("\n...[truncated]...\n" : String).data.length = 19 := by decide
  have hTLdata : ∀ (s : String) (n : Nat),
      (strTakeLast s n).data = s.data.drop (s.data.length - n) := fun _ _ => rfl
  have hTdata : ∀ (s : String) (n : Nat),
      (strTake s n).data = s.data.take n := fun _ _ => rfl
  have htail : (strTakeLast big_stdout 5000).data.length = 5000 := by
    have h := congrArg List.length (hTLdata big_stdout 5000)
    rw [List.length_drop, hbiglen] at h
    omega
  have hhead : (strTake big_stdout 5000).data.length = 5000 := by
    have h := congrArg List.length (hTdata big_stdout 5000)
    rw [List.length_take, hbiglen] at h
    omega
  have helide : (elideMiddle (combineOutput big_stdout "")).data.length = 10019 := by
    rw [hco]
    unfold elideMiddle
    rw [if_pos (by rw [hbiglen]; omega)]
    rw [String.data_append, String.data_append, List.length_append, List.length_append,
      hhead, hmark, htail]
  refine ⟨by decide, by rw [hco, hbiglen]; omega, ?_⟩
  have hdet : (testExecutionVerify 300 "pytest" (.completed 0 big_stdout "")).details =
      [("exit_code", .i 0), ("stdout", .s (strTake big_stdout 5000)),
       ("stderr", .s (strTake "" 5000)), ("test_command", .s "pytest")] := rfl
  rw [hdet]
  intro kv hkv
  simp only [List.mem_cons, List.not_mem_nil, or_false] at hkv
  rcases hkv with h | h | h | h
  · rw [h]; intro hcontr; cases hcontr
  · rw [h]
    intro hcontr
    simp only [DVal.s.injEq] at hcontr
    have hlen : (strTake big_stdout 5000).data.length =
        (elideMiddle (combineOutput big_stdout "")).data.length := by rw [hcontr]
    rw [hhead, helide] at hlen
    exact absurd hlen (by decide)
  · rw [h]
    intro hcontr
    simp only [DVal.s.injEq] at hcontr
    have hlen : (strTake "" 5000).data.length =
        (elideMiddle (combineOutput big_stdout "")).data.length := by rw [hcontr]
    rw [helide] at hlen
    rw [show (strTake "" 5000).data.length = 0 from by decide] at hlen
    exact absurd hlen (by decide)
  · rw [h]
    intro hcontr
    simp only [DVal.s.injEq] at hcontr
    have hlen : ("pytest" : String).data.length =
        (elideMiddle (combineOutput big_stdout "")).data.length := by rw [hcontr]
    rw [helide] at hlen
    rw [show ("pytest" : String).data.length = 6 from by decide] at hlen
    exact absurd hlen (by decide)

/-- C8 amended: for every completed test subprocess, the verdict passes
exactly when the exit code is zero, and the details map holds the exit
code, the first 5000 characters of stdout and of stderr, and the test
command (the middle-elided 10k window of the combined output is computed
by the source but not included). -/
theorem C8_passed_iff_exit_zero (timeout : Nat) (cmd : String) (code : Int)
    (out err : String) (hcmd : cmd ≠ "") :
    ((testExecutionVerify timeout cmd (.completed code out err)).passed = true ↔ code = 0) ∧
    (testExecutionVerify timeout cmd (.completed code out err)).details =
      [("exit_code", .i code), ("stdout", .s (strTake out 5000)),
       ("stderr", .s (strTake err 5000)), ("test_command", .s cmd)] := by
  unfold testExecutionVerify
  rw [if_neg hcmd]
  exact ⟨beq_iff_eq, rfl⟩

/-- Witness for C8 amended at a passing run of the `true` command. -/
theorem C8_passed_iff_exit_zero_witness :
    ((testExecutionVerify 300 "true" (.completed 0 "ok" "")).passed = true ↔ (0 : Int) = 0) ∧
    (testExecutionVerify 300 "true" (.completed 0 "ok" "")).details =
      [("exit_code", .i 0), ("stdout", .s (strTake "ok" 5000)),
       ("stderr", .s (strTake "" 5000)), ("test_command", .s "true")] :=
  C8_passed_iff_exit_zero 300 "true" 0 "ok" "" (by decide)

/-! ## C9: grader patch filter -/

/-- C9 counterexample: the path `latest/foo.py` — no segment equals
`tests`, `test` or `testing`, and its basename is not test-like — is
nevertheless classified as a test file by the source (the substring
`test/` occurs inside `latest/`), so its diff section is discarded,
while the claim as stated requires it to be kept. -/
theorem C9_latest_segment_counterexample :
    isTestFile "latest/foo.py" = true ∧
    claimTestFile "latest/foo.py" = false ∧
    extractSourceOnlyPatch
      [{ header_path := some "latest/foo.py",
         text := "diff --git a/latest/foo.py b/latest/foo.py\n+x\n" }] = "" := by
  decide

/-- C9 amended: a parsed per-file section is discarded exactly when its
basename starts with `test_` or ends with `_test.py`, or the path
contains `tests/`, `test/` or `testing/` as a substring, or its basename
equals `conftest.py`; all other parsed sections are kept unchanged in
order (sections whose header does not parse are dropped). -/
theorem C9_substring_filter :
    (∀ p, isTestFile p = amendedTestFile p) ∧
    (∀ sections : List DiffSection,
      extractSourceOnlyPatch sections =
        String.join ((sections.filter amendedKeep).map fun fd => fd.text)) := by
  have hpt : ∀ p, isTestFile p = amendedTestFile p := by
    intro p
    unfold isTestFile amendedTestFile
    by_cases hc : basenameOf p = "conftest.py"
    · simp only [hc, if_pos rfl, beq_self_eq_true]
      cases strStartsWith (basenameOf "conftest.py") "test_" <;>
        cases strEndsWith (basenameOf "conftest.py") "_test.py" <;>
        cases strIn "tests/" p <;> cases strIn "test/" p <;> cases strIn "testing/" p <;>
        simp
    · have hc' : (basenameOf p == "conftest.py") = false := by
        simpa using hc
      simp only [hc, if_neg, hc']
      cases strStartsWith (basenameOf p) "test_" <;>
        cases strEndsWith (basenameOf p) "_test.py" <;>
        cases strIn "tests/" p <;> cases strIn "test/" p <;> cases strIn "testing/" p <;>
        simp
  refine ⟨hpt, ?_⟩
  intro sections
  unfold extractSourceOnlyPatch
  have hfc : ∀ fd ∈ sections,
      (match fd.header_path with
       | none => false
       | some p => !(isTestFile p)) = amendedKeep fd := by
    intro fd _
    unfold amendedKeep
    cases fd.header_path with
    | none => rfl
    | some p => simp [hpt p]
  rw [List.filter_congr hfc]

/-! ## C10: file tools are not confined to the workspace -/

/-- C10: the pathlib join used by all three file tools resolves an
absolute argument to the argument itself, so `file_read`, `file_write`
and `file_edit` operate directly on the absolute path; in particular
`file_write` with an absolute path creates or overwrites a file outside
the per-task workspace directory (the concrete conjunct instantiates
this at `/etc/passwd` against the default workspace). -/
theorem C10_absolute_paths_escape_workspace :
    (∀ ws p, pathIsAbsolute p = true →
      pathJoin ws p = p ∧
      (∀ fs content,
        (fileWriteExecute fs ws p content).1 p = some content ∧
        (∀ q, q ≠ p → (fileWriteExecute fs ws p content).1 q = fs q) ∧
        (fileWriteExecute fs ws p content).2 = "Successfully wrote to " ++ p) ∧
      (∀ fs : FS, fileReadExecute fs ws p =
        match fs p with
        | some content => content
        | none => "Error: File not found: " ++ p) ∧
      (∀ fs old new, fs p = none →
        fileEditExecute fs ws p old new = (fs, "Error: File not found: " ++ p))) ∧
    (pathJoin "/tmp/agent-workspace" "/etc/passwd" = "/etc/passwd" ∧
     strStartsWith "/etc/passwd" "/tmp/agent-workspace" = false) := by
  constructor
  · intro ws p hp
    have hj : pathJoin ws p = p := by
      unfold pathJoin
      rw [if_pos hp]
    refine ⟨hj, ?_, ?_, ?_⟩
    · intro fs content
      refine ⟨?_, ?_, rfl⟩
      · simp [fileWriteExecute, FS.update, hj]
      · intro q hq
        simp [fileWriteExecute, FS.update, hj, hq]
    · intro fs
      unfold fileReadExecute
      rw [hj]
    · intro fs old new hnone
      unfold fileEditExecute
      rw [hj, hnone]
  · exact ⟨by decide, by decide⟩

/-- Witness for C10 at the default workspace and an absolute system
path. -/
theorem C10_absolute_paths_escape_workspace_witness :
    pathJoin "/tmp/agent-workspace" "/etc/passwd" = "/etc/passwd" ∧
    ∀ fs : FS, (fileWriteExecute fs "/tmp/agent-workspace" "/etc/passwd" "pwned").1
      "/etc/passwd" = some "pwned" :=
  ⟨(C10_absolute_paths_escape_workspace.1 "/tmp/agent-workspace" "/etc/passwd" (by decide)).1,
   fun fs => ((C10_absolute_paths_escape_workspace.1 "/tmp/agent-workspace" "/etc/passwd"
      (by decide)).2.1 fs "pwned").1⟩

/-! ## C1: R1 recovery exhaustion (code bug) -/

/-- C1 at the failing input: recovery R1, an always-failing verifier,
`max_recovery_attempts = 1`, `max_iterations = 10`, a model that always
declares completion. The claim (and the specification) expect termination
with `max_recovery` after 1 recovery and 2 verifications. The source
never increments the `recovery_attempts` counter on the R1 path
(`_agent_loop` threads it unchanged through `_run_verification`), so the
run keeps recovering until the iteration budget fires — 10 recoveries and
10 verifications, with `max_iterations` recorded on the context — and the
terminal `_build_result` call then raises, so `run` returns a handler
record with `completion_reason = "error"`. -/
theorem C1_r1_never_reaches_max_recovery :
    harness_run cfg_r1_exhaust env_always_fail demo_task =
      { task_id := "t", resolved := false, input_tokens := 100, output_tokens := 50,
        wall_clock_seconds := 0, tool_call_count := 0, verification_count := 10,
        recovery_count := 10, iterations := 10,
        completion_reason := "error", error := build_result_raise } ∧
    (agent_loop cfg_r1_exhaust env_always_fail demo_task (run_fuel cfg_r1_exhaust)
      (initial_context demo_task) 0).reason = "max_iterations" := by
  constructor
  · decide
  · decide

/-! ## C2: cumulative counters across R3 (code bug) -/

/-- C2 at the failing input: recovery R3, an always-failing verifier,
`max_recovery_attempts = 1`, a model that always declares completion with
usage (10, 5). Two LLM calls happen — one per attempt, witnessed by
`input_tokens = 20` and `output_tokens = 10`, inherited only because the
`TokenUsage` object is aliased between the contexts — but the result
reports `iterations = 1`, `verification_count = 1` and
`recovery_count = 0`: the inner attempt performed the second verification
and the recovery, yet its terminal `_build_result` raises before the
copy-back at harness.py lines 234-239 runs, so `run`'s handler reads the
outer context's scalar counters and returns `completion_reason =
"error"`. The cumulative-counter inheritance the claim states fails for
iterations, verifications and recoveries alike. -/
theorem C2_r3_counters_not_inherited :
    harness_run cfg_r3_counters env_always_fail demo_task =
      { task_id := "t", resolved := false, input_tokens := 20, output_tokens := 10,
        wall_clock_seconds := 0, tool_call_count := 0, verification_count := 1,
        recovery_count := 0, iterations := 1,
        completion_reason := "error", error := build_result_raise } := by
  decide

/-! ## C3: V0 run with immediate completion (code bug) -/

/-- C3 at the failing input: the stub of scenario 1 (first response a
text block containing TASK_COMPLETE, no tool use, usage input=10
output=5) with the always-passing verifier V0. The loop behaves as the
claim describes — one iteration, zero tool calls, one verification, and
`"verified"` recorded on the context (second conjunct) — but the
`return self._build_result(context, task)` that follows raises
`TypeError`, so `AgentHarness.run` returns `resolved = false` and
`completion_reason = "error"` instead of the claimed
`resolved = true` / `"verified"` result. -/
theorem C3_v0_run_returns_error :
    harness_run defaultHarnessConfig env_v0_declares demo_task =
      { task_id := "t", resolved := false, input_tokens := 10, output_tokens := 5,
        wall_clock_seconds := 0, tool_call_count := 0, verification_count := 1,
        recovery_count := 0, iterations := 1,
        completion_reason := "error", error := build_result_raise } ∧
    (agent_loop defaultHarnessConfig env_v0_declares demo_task
      (run_fuel defaultHarnessConfig) (initial_context demo_task) 0).reason = "verified" := by
  constructor
  · decide
  · decide

/-! ## C5: exception reason (corrected) -/

/-- C5 counterexample: when the first model call raises, the harness
returns `completion_reason = "error"` — not `"harness_error"`, and not a
member of the closed set named by the claim. -/
theorem C5_exception_reason_is_error :
    (harness_run defaultHarnessConfig env_gen_raises demo_task).completion_reason = "error" ∧
    (harness_run defaultHarnessConfig env_gen_raises demo_task).resolved = false ∧
    (harness_run defaultHarnessConfig env_gen_raises demo_task).completion_reason ∉
      (["verified", "agent_declared", "max_iterations", "token_budget", "timeout",
        "max_recovery", "provision_error", "harness_error", "exception"] : List String) := by
  decide

/-! ## The scheduler invariants behind the amended C5

The chain below proves, by induction on fuel, that the loop never runs
out of fuel at `run_fuel cfg` (so the `.fuelOut` sentinel of the model is
unreachable) and that the reason recorded on the context at every normal
termination site lies in the scheduler's closed set. -/

theorem resume_new_context_spec (task : Task)
    (rec : Context → Nat → LoopOut) (ctxOuter : Context) (recovery_attempts : Nat)
    (newCtx : Context) (hrec : LoopOutSpec (rec newCtx (recovery_attempts + 1))) :
    resume_new_context task rec ctxOuter recovery_attempts newCtx ≠ VStep.outOfFuel ∧
    (∀ fin, resume_new_context task rec ctxOuter recovery_attempts newCtx =
      VStep.stopped fin → fin.completion_reason ∈ scheduler_reasons) ∧
    (∀ c, resume_new_context task rec ctxOuter recovery_attempts newCtx =
      VStep.continued c → False) := by
  cases hre : rec newCtx (recovery_attempts + 1) with
  | fuelOut => exact absurd hre hrec.1
  | exn ctxE e =>
    simp only [resume_new_context, hre]
    exact ⟨fun h => (nomatch h), fun fin h => (nomatch h), fun c h => (nomatch h)⟩
  | done fin =>
    simp only [resume_new_context, build_result, hre]
    exact ⟨fun h => (nomatch h), fun fin h => (nomatch h), fun c h => (nomatch h)⟩

theorem run_verification_spec (cfg : HarnessConfig) (env : Env) (task : Task)
    (rec : Context → Nat → LoopOut) (ctx : Context) (recovery_attempts : Nat)
    (hrec : ∀ c r, c.is_complete = false → c.iteration_count = ctx.iteration_count →
      LoopOutSpec (rec c r)) :
    VStepSpec ctx (run_verification cfg env task rec ctx recovery_attempts) := by
  unfold run_verification
  by_cases hv : (env.verify ctx.verification_count).passed = true
  · rw [if_pos hv]
    refine ⟨fun h => (nomatch h), ?_, fun c h => (nomatch h)⟩
    intro fin hfin
    injection hfin with h2
    subst h2
    show "verified" ∈ scheduler_reasons
    decide
  · rw [if_neg hv]
    by_cases hm : cfg.max_recovery_attempts ≤ recovery_attempts
    · rw [if_pos hm]
      refine ⟨fun h => (nomatch h), ?_, fun c h => (nomatch h)⟩
      intro fin hfin
      injection hfin with h2
      subst h2
      show "max_recovery" ∈ scheduler_reasons
      decide
    · rw [if_neg hm]
      cases hstrat : cfg.recovery_strategy with
      | retry_in_context =>
        refine ⟨fun h => (nomatch h), fun fin h => (nomatch h), ?_⟩
        intro c hc
        injection hc with h2
        subst h2
        exact ⟨rfl, rfl⟩
      | fresh_restart =>
        have hspec := resume_new_context_spec task rec
          { ctx with verification_count := ctx.verification_count + 1 } recovery_attempts
          (fresh_restart_recover
            { ctx with verification_count := ctx.verification_count + 1 }
            (env.verify ctx.verification_count) task)
          (hrec _ _ rfl rfl)
        exact ⟨hspec.1, hspec.2.1, fun c hc => absurd hc (fun h => hspec.2.2 c h)⟩
      | compact_and_retry =>
        cases hcg : env.compact_gen ctx.recovery_count with
        | error e =>
          exact ⟨fun h => (nomatch h), fun fin h => (nomatch h), fun c h => (nomatch h)⟩
        | ok resp =>
          have hspec := resume_new_context_spec task rec
            { ctx with
              verification_count := ctx.verification_count + 1,
              token_usage := ctx.token_usage.add resp.input_tokens resp.output_tokens 0 0 0 }
            recovery_attempts
            (compact_recover
              { ctx with
                verification_count := ctx.verification_count + 1,
                token_usage := ctx.token_usage.add resp.input_tokens resp.output_tokens 0 0 0 }
              resp.text_content (env.verify ctx.verification_count) task)
            (hrec _ _ rfl rfl)
          exact ⟨hspec.1, hspec.2.1, fun c hc => absurd hc (fun h => hspec.2.2 c h)⟩

theorem process_tools_spec (cfg : HarnessConfig) (env : Env) (task : Task)
    (rec : Context → Nat → LoopOut) (recovery_attempts : Nat) :
    ∀ (tools : List ToolUseBlock) (ctx : Context),
      ctx.is_complete = false →
      (∀ c r, c.is_complete = false → c.iteration_count = ctx.iteration_count →
        LoopOutSpec (rec c r)) →
      VStepSpec ctx (process_tools cfg env task rec recovery_attempts tools ctx) := by
  intro tools
  induction tools with
  | nil =>
    intro ctx hc _
    refine ⟨fun h => (nomatch h), fun fin h => (nomatch h), ?_⟩
    intro c hcc
    injection hcc with h2
    subst h2
    exact ⟨hc, rfl⟩
  | cons tu rest ih =>
    intro ctx hc hrec
    unfold process_tools
    by_cases hg : (cfg.verification_granularity == VerificationGranularity.per_step) = true
    · rw [if_pos hg]
      have hd : (dispatch_tool env tu ctx).iteration_count = ctx.iteration_count := rfl
      have hrv := run_verification_spec cfg env task rec (dispatch_tool env tu ctx)
        recovery_attempts (by intro c r h1 h2; exact hrec c r h1 h2)
      cases hrvout : run_verification cfg env task rec (dispatch_tool env tu ctx)
          recovery_attempts with
      | stopped fin =>
        exact ⟨fun h => (nomatch h),
          fun fin' h => by injection h with h2; subst h2; exact hrv.2.1 fin hrvout,
          fun c h => (nomatch h)⟩
      | continued ctx2 =>
        have hc2 := hrv.2.2 ctx2 hrvout
        have hihs := ih ctx2 hc2.1 (by
          intro c r h1 h2
          exact hrec c r h1 (h2.trans (hc2.2.trans hd)))
        refine ⟨hihs.1, hihs.2.1, ?_⟩
        intro c hcont
        have h3 := hihs.2.2 c hcont
        exact ⟨h3.1, h3.2.trans (hc2.2.trans hd)⟩
      | raised cE m =>
        exact ⟨fun h => (nomatch h), fun fin h => (nomatch h), fun c h => (nomatch h)⟩
      | outOfFuel => exact absurd hrvout hrv.1
    · rw [if_neg hg]
      have hihs := ih (dispatch_tool env tu ctx) hc (by intro c r h1 h2; exact hrec c r h1 h2)
      exact ⟨hihs.1, hihs.2.1, fun c hcont => hihs.2.2 c hcont⟩

theorem agent_step_spec (cfg : HarnessConfig) (env : Env) (task : Task)
    (rec : Context → Nat → LoopOut) (response : LLMResponse) (ctx1 : Context)
    (recovery_attempts : Nat) (hc1 : ctx1.is_complete = false)
    (hrec : ∀ c r, c.is_complete = false → c.iteration_count = ctx1.iteration_count →
      LoopOutSpec (rec c r)) :
    LoopOutSpec (agent_step cfg env task rec response ctx1 recovery_attempts) := by
  unfold agent_step
  by_cases htool : response.has_tool_use = true
  · rw [if_pos htool]
    have hpt := process_tools_spec cfg env task rec recovery_attempts
      response.tool_uses ctx1 hc1 hrec
    cases hout : process_tools cfg env task rec recovery_attempts response.tool_uses ctx1 with
    | stopped fin =>
      refine ⟨fun h => (nomatch h), ?_⟩
      intro fin' hfin'
      injection hfin' with h4
      subst h4
      exact hpt.2.1 fin hout
    | continued ctx2 =>
      have hcc2 := hpt.2.2 ctx2 hout
      exact hrec ctx2 recovery_attempts hcc2.1 hcc2.2
    | raised cE m =>
      exact ⟨fun h => (nomatch h), fun fin h => (nomatch h)⟩
    | outOfFuel => exact absurd hout hpt.1
  · rw [if_neg htool]
    by_cases hmark : strIn TASK_COMPLETE_MARKER response.text_content = true
    · rw [if_pos hmark]
      have hrv := run_verification_spec cfg env task rec
        { ctx1 with is_complete := true, completion_reason := "agent_declared" }
        recovery_attempts (by intro c r h1 h2; exact hrec c r h1 h2)
      cases hout : run_verification cfg env task rec
          { ctx1 with is_complete := true, completion_reason := "agent_declared" }
          recovery_attempts with
      | stopped fin =>
        refine ⟨fun h => (nomatch h), ?_⟩
        intro fin' hfin'
        injection hfin' with h4
        subst h4
        exact hrv.2.1 fin hout
      | continued ctx3 =>
        have hcc3 := hrv.2.2 ctx3 hout
        exact hrec ctx3 recovery_attempts hcc3.1 hcc3.2
      | raised cE m =>
        exact ⟨fun h => (nomatch h), fun fin h => (nomatch h)⟩
      | outOfFuel => exact absurd hout hrv.1
    · rw [if_neg hmark]
      by_cases hstop : (response.stop_reason == "end_turn") = true
      · rw [if_pos hstop]
        exact hrec _ recovery_attempts hc1 rfl
      · rw [if_neg hstop]
        exact hrec ctx1 recovery_attempts hc1 rfl

theorem agent_loop_zero (cfg : HarnessConfig) (env : Env) (task : Task)
    (ctx : Context) (recovery_attempts : Nat) :
    agent_loop cfg env task 0 ctx recovery_attempts =
      (if ctx.is_complete then .done ctx
       else if cfg.max_iterations ≤ ctx.iteration_count then
        .done { ctx with is_complete := true, completion_reason := "max_iterations" }
       else if cfg.max_tokens_budget ≤ ctx.token_usage.total then
        .done { ctx with is_complete := true, completion_reason := "token_budget" }
       else if cfg.timeout_seconds ≤ env.clock ctx.iteration_count then
        .done { ctx with is_complete := true, completion_reason := "timeout" }
       else .fuelOut) := rfl

theorem agent_loop_succ (cfg : HarnessConfig) (env : Env) (task : Task)
    (fuel' : Nat) (ctx : Context) (recovery_attempts : Nat) :
    agent_loop cfg env task (fuel' + 1) ctx recovery_attempts =
      (if ctx.is_complete then .done ctx
       else if cfg.max_iterations ≤ ctx.iteration_count then
        .done { ctx with is_complete := true, completion_reason := "max_iterations" }
       else if cfg.max_tokens_budget ≤ ctx.token_usage.total then
        .done { ctx with is_complete := true, completion_reason := "token_budget" }
       else if cfg.timeout_seconds ≤ env.clock ctx.iteration_count then
        .done { ctx with is_complete := true, completion_reason := "timeout" }
       else match env.gen ctx.iteration_count ctx.messages with
        | .error e => .exn ctx e
        | .ok response =>
          agent_step cfg env task (agent_loop cfg env task fuel') response
            { ctx with
              token_usage := ctx.token_usage.add response.input_tokens response.output_tokens
                response.cache_creation_input_tokens response.cache_read_input_tokens
                response.cost_usd,
              iteration_count := ctx.iteration_count + 1,
              messages := ctx.messages ++ [assistant_message response.content] }
            recovery_attempts) := rfl

theorem agent_loop_spec (cfg : HarnessConfig) (env : Env) (task : Task) :
    ∀ (fuel : Nat) (ctx : Context) (recovery_attempts : Nat),
      ctx.is_complete = false →
      cfg.max_iterations + 2 ≤ fuel + ctx.iteration_count →
      LoopOutSpec (agent_loop cfg env task fuel ctx recovery_attempts) := by
  intro fuel
  induction fuel with
  | zero =>
    intro ctx recovery_attempts hc hinv
    rw [agent_loop_zero]
    rw [if_neg (by simp [hc]), if_pos (by omega)]
    refine ⟨fun h => (nomatch h), ?_⟩
    intro fin hfin
    injection hfin with h2
    subst h2
    show "max_iterations" ∈ scheduler_reasons
    decide
  | succ n ih =>
    intro ctx recovery_attempts hc hinv
    rw [agent_loop_succ]
    rw [if_neg (by simp [hc])]
    by_cases h1 : cfg.max_iterations ≤ ctx.iteration_count
    · rw [if_pos h1]
      refine ⟨fun h => (nomatch h), ?_⟩
      intro fin hfin
      injection hfin with h2
      subst h2
      show "max_iterations" ∈ scheduler_reasons
      decide
    · rw [if_neg h1]
      by_cases h2 : cfg.max_tokens_budget ≤ ctx.token_usage.total
      · rw [if_pos h2]
        refine ⟨fun h => (nomatch h), ?_⟩
        intro fin hfin
        injection hfin with h3
        subst h3
        show "token_budget" ∈ scheduler_reasons
        decide
      · rw [if_neg h2]
        by_cases h3 : cfg.timeout_seconds ≤ env.clock ctx.iteration_count
        · rw [if_pos h3]
          refine ⟨fun h => (nomatch h), ?_⟩
          intro fin hfin
          injection hfin with h4
          subst h4
          show "timeout" ∈ scheduler_reasons
          decide
        · rw [if_neg h3]
          cases hgen : env.gen ctx.iteration_count ctx.messages with
          | error e =>
            exact ⟨fun h => (nomatch h), fun fin h => (nomatch h)⟩
          | ok response =>
            refine agent_step_spec cfg env task (agent_loop cfg env task n) response _
              recovery_attempts hc ?_
            intro c r hcc hcount
            refine ih c r hcc ?_
            have hcount' : c.iteration_count = ctx.iteration_count + 1 := hcount
            omega

/-! ## C4: resolved iff verified -/

/-- C4: for every run of the harness — any configuration, any oracle
environment, any task — the returned `resolved` flag is true exactly when
the returned `completion_reason` is `"verified"`. The iff holds in the
source, though degenerately: every result `AgentHarness.run` returns is
an `except`-handler record with `resolved = False` and
`completion_reason = "error"` (the normal returns all raise inside
`_build_result`), so both sides of the equivalence are false on every
run. -/
theorem C4_resolved_iff_verified (cfg : HarnessConfig) (env : Env) (task : Task) :
    (harness_run cfg env task).resolved = true ↔
    (harness_run cfg env task).completion_reason = "verified" := by
  have hgen : ∀ (c : Context) (e : String),
      ((run_except_result env c task e).resolved = true ↔
        (run_except_result env c task e).completion_reason = "verified") := by
    intro c e
    constructor
    · intro hb
      exact absurd (show (false : Bool) = true from hb) (by decide)
    · intro he
      exact absurd (show ("error" : String) = "verified" from he) (by decide)
  unfold harness_run
  cases agent_loop cfg env task (run_fuel cfg) (initial_context task) 0 with
  | done fin => exact hgen fin build_result_raise
  | exn ctx e => exact hgen ctx e
  | fuelOut => exact hgen (initial_context task) build_result_raise

/-! ## C5 amended: the reasons AgentHarness.run returns -/

/-- C5 amended: on every run — any configuration, oracle environment and
task — `AgentHarness.run` returns `completion_reason = "error"` with
`resolved = false`: the exception path the claim describes yields
`"error"` (not `"harness_error"`; that tag, like `provision_error` and
`exception`, is produced by the batch-runner layer outside
`AgentHarness.run`), and every normal termination of the loop also ends
on the exception path because `_build_result` raises. The closed set of
reasons the scheduler records on the *context* at its would-be normal
returns is {verified, max_iterations, token_budget, timeout,
max_recovery} (third conjunct); none of these ever reaches the returned
result. -/
theorem C5_run_reason_always_error (cfg : HarnessConfig) (env : Env) (task : Task) :
    (harness_run cfg env task).completion_reason = "error" ∧
    (harness_run cfg env task).resolved = false ∧
    (∀ fin, agent_loop cfg env task (run_fuel cfg) (initial_context task) 0 =
      LoopOut.done fin → fin.completion_reason ∈ scheduler_reasons) := by
  have hmain := agent_loop_spec cfg env task (run_fuel cfg) (initial_context task) 0
    rfl (by show cfg.max_iterations + 2 ≤ cfg.max_iterations + 2 + 0; omega)
  refine ⟨?_, ?_, hmain.2⟩
  · unfold harness_run
    cases agent_loop cfg env task (run_fuel cfg) (initial_context task) 0 <;> rfl
  · unfold harness_run
    cases agent_loop cfg env task (run_fuel cfg) (initial_context task) 0 <;> rfl

end AgentVerify
